import Mathlib

/-!
Verification of the Cursor Pro Limits Monitor core
(`src/cursorLimitsMonitor.ts`, tier-aware version, together with the type
declarations in `src/types.ts`).

Embedding conventions:
* JavaScript numbers are modelled as `ℚ`.  Every quantity the monitor
  manipulates is an integer or a quotient of small integers, so rational
  arithmetic reproduces the source's comparisons and clamps exactly.
* `Date` timestamps are modelled as `ℕ`; `new Date()` becomes an explicit
  `now` parameter.
* Observer callbacks are identified by `ℕ` tokens (JavaScript compares
  callbacks by object identity; any type with decidable equality models
  that).  Invoking the callbacks is modelled by returning the list of
  notification events `(callback, stats)` that a mutating call emits.
* State-mutating methods of the class become functions
  `MonitorState → ... → MonitorState × List Notification`; read-only
  methods become pure functions of the state, and additionally get an
  `...Op` form in the uniform effectful signature so that their lack of
  state changes and notifications is a stated, provable fact.
-/

namespace CursorLimits

/-- The four service tokens accepted by `getServiceUsage` / enumerated by
`checkAlerts` (`ServiceType` in `types.ts`). -/
inductive ServiceType where
  | sonnet45
  | gemini
  | gpt5
  | total
deriving DecidableEq, Repr

/-- `CursorProLimits` from `types.ts`: the current usage snapshot. -/
structure CursorProLimits where
  sonnet45Requests : ℚ
  geminiRequests : ℚ
  gpt5Requests : ℚ
  totalRequests : ℚ
  lastUpdated : ℕ
deriving DecidableEq, Repr

/-- `CursorProQuotas` from `types.ts`: the ceilings for one tier.  The tier
identifier is a string, as in the source. -/
structure CursorProQuotas where
  maxSonnet45Requests : ℚ
  maxGeminiRequests : ℚ
  maxGpt5Requests : ℚ
  maxTotalRequests : ℚ
  tier : String
deriving DecidableEq, Repr

/-- One rational figure per service, as in the `usagePercentages` and
`remaining` record literals built by `getUsageStats`. -/
structure ServiceFigures where
  sonnet45 : ℚ
  gemini : ℚ
  gpt5 : ℚ
  total : ℚ
deriving DecidableEq, Repr

/-- Indexing a per-service record by a service token, as in
`stats.usagePercentages[service]`. -/
def ServiceFigures.get (f : ServiceFigures) : ServiceType → ℚ
  | .sonnet45 => f.sonnet45
  | .gemini => f.gemini
  | .gpt5 => f.gpt5
  | .total => f.total

/-- `UsageStats` from `types.ts`. -/
structure UsageStats where
  limits : CursorProLimits
  quotas : CursorProQuotas
  usagePercentages : ServiceFigures
  remaining : ServiceFigures
deriving DecidableEq, Repr

/-- `ServiceUsage` from `types.ts`. -/
structure ServiceUsage where
  service : ServiceType
  current : ℚ
  max : ℚ
  percentage : ℚ
  remaining : ℚ
  isWarning : Bool
  isCritical : Bool
deriving DecidableEq, Repr

/-- The private fields of the `CursorLimitsMonitor` class. -/
structure MonitorState where
  limits : CursorProLimits
  quotas : CursorProQuotas
  updateCallbacks : List ℕ
deriving DecidableEq, Repr

/-- A notification event: which callback was invoked, with which stats. -/
abbrev Notification := ℕ × UsageStats

/-- `Math.min` on two rationals (no NaN exists in the embedding). -/
def jsMin (a b : ℚ) : ℚ := if a ≤ b then a else b

/-- `Math.max` on two rationals. -/
def jsMax (a b : ℚ) : ℚ := if a ≤ b then b else a

/-- `getQuotasForTier`: the switch over the tier string, with the default
case returning the pro quotas. -/
def getQuotasForTier (tier : String) : CursorProQuotas :=
  if tier = "pro" then
    { maxSonnet45Requests := 225, maxGeminiRequests := 550,
      maxGpt5Requests := 500, maxTotalRequests := 1275, tier := "pro" }
  else if tier = "pro-plus" then
    { maxSonnet45Requests := 675, maxGeminiRequests := 1650,
      maxGpt5Requests := 1500, maxTotalRequests := 3825, tier := "pro-plus" }
  else if tier = "ultra" then
    { maxSonnet45Requests := 4500, maxGeminiRequests := 11000,
      maxGpt5Requests := 10000, maxTotalRequests := 25500, tier := "ultra" }
  else
    { maxSonnet45Requests := 225, maxGeminiRequests := 550,
      maxGpt5Requests := 500, maxTotalRequests := 1275, tier := "pro" }

/-- The constructor: all counts zero, a fresh timestamp, quotas resolved
for the requested tier, no callbacks registered. -/
def initMonitor (tier : String) (now : ℕ) : MonitorState :=
  { limits :=
      { sonnet45Requests := 0, geminiRequests := 0, gpt5Requests := 0,
        totalRequests := 0, lastUpdated := now },
    quotas := getQuotasForTier tier,
    updateCallbacks := [] }

/-- `calculatePercentage`: zero ceiling yields 0, otherwise the percentage
of ceiling used, clamped at 100. -/
def calculatePercentage (current max : ℚ) : ℚ :=
  if max = 0 then 0 else jsMin 100 (current / max * 100)

/-- `getUsageStats`: percentages and remaining for every service, plus
copies of the snapshot and the quota set. -/
def getUsageStats (st : MonitorState) : UsageStats :=
  { limits := st.limits,
    quotas := st.quotas,
    usagePercentages :=
      { sonnet45 := calculatePercentage st.limits.sonnet45Requests st.quotas.maxSonnet45Requests,
        gemini := calculatePercentage st.limits.geminiRequests st.quotas.maxGeminiRequests,
        gpt5 := calculatePercentage st.limits.gpt5Requests st.quotas.maxGpt5Requests,
        total := calculatePercentage st.limits.totalRequests st.quotas.maxTotalRequests },
    remaining :=
      { sonnet45 := jsMax 0 (st.quotas.maxSonnet45Requests - st.limits.sonnet45Requests),
        gemini := jsMax 0 (st.quotas.maxGeminiRequests - st.limits.geminiRequests),
        gpt5 := jsMax 0 (st.quotas.maxGpt5Requests - st.limits.gpt5Requests),
        total := jsMax 0 (st.quotas.maxTotalRequests - st.limits.totalRequests) } }

/-- `getCurrentUsage`: the current count for a service token. -/
def getCurrentUsage (st : MonitorState) : ServiceType → ℚ
  | .sonnet45 => st.limits.sonnet45Requests
  | .gemini => st.limits.geminiRequests
  | .gpt5 => st.limits.gpt5Requests
  | .total => st.limits.totalRequests

/-- `getMaxUsage`: the ceiling for a service token. -/
def getMaxUsage (st : MonitorState) : ServiceType → ℚ
  | .sonnet45 => st.quotas.maxSonnet45Requests
  | .gemini => st.quotas.maxGeminiRequests
  | .gpt5 => st.quotas.maxGpt5Requests
  | .total => st.quotas.maxTotalRequests

/-- `getServiceUsage`: extracts one service's figures from `getUsageStats`
and computes the alert flags.  The source compares the percentage value
(0 to 100 scale, from `calculatePercentage`) against the literals 0.8 and
0.95. -/
def getServiceUsage (st : MonitorState) (service : ServiceType) : ServiceUsage :=
  let stats := getUsageStats st
  let current := getCurrentUsage st service
  let maxU := getMaxUsage st service
  let percentage := stats.usagePercentages.get service
  let remaining := stats.remaining.get service
  { service := service, current := current, max := maxU,
    percentage := percentage, remaining := remaining,
    isWarning := decide (percentage ≥ (0.8 : ℚ)),
    isCritical := decide (percentage ≥ (0.95 : ℚ)) }

/-- The fixed enumeration `['sonnet45', 'gemini', 'gpt5', 'total']` inside
`checkAlerts`. -/
def services : List ServiceType := [.sonnet45, .gemini, .gpt5, .total]

/-- `checkAlerts`: map `getServiceUsage` over the fixed enumeration, keep
the entries with a flag set. -/
def checkAlerts (st : MonitorState) : List ServiceUsage :=
  (services.map (fun s => getServiceUsage st s)).filter
    (fun u => u.isWarning || u.isCritical)

/-- `Partial<CursorProLimits>`: each field optionally supplied.  A supplied
`lastUpdated` is overridden by the fresh timestamp in `updateLimits`
(object spread, later keys win). -/
structure CursorProLimitsPatch where
  sonnet45Requests : Option ℚ := none
  geminiRequests : Option ℚ := none
  gpt5Requests : Option ℚ := none
  totalRequests : Option ℚ := none
  lastUpdated : Option ℕ := none
deriving DecidableEq, Repr

/-- `notifyCallbacks`: invoke every registered callback, in list order,
with the freshly computed stats. -/
def notifyCallbacks (st : MonitorState) : List Notification :=
  st.updateCallbacks.map (fun c => (c, getUsageStats st))

/-- `updateLimits`: spread-merge of the supplied fields over the snapshot,
timestamp always refreshed, then callback fan-out. -/
def updateLimits (st : MonitorState) (newLimits : CursorProLimitsPatch) (now : ℕ) :
    MonitorState × List Notification :=
  let st1 : MonitorState :=
    { st with limits :=
        { sonnet45Requests := newLimits.sonnet45Requests.getD st.limits.sonnet45Requests,
          geminiRequests := newLimits.geminiRequests.getD st.limits.geminiRequests,
          gpt5Requests := newLimits.gpt5Requests.getD st.limits.gpt5Requests,
          totalRequests := newLimits.totalRequests.getD st.limits.totalRequests,
          lastUpdated := now } }
  (st1, notifyCallbacks st1)

/-- `updateTier`: re-resolve the quota set, then callback fan-out. -/
def updateTier (st : MonitorState) (tier : String) :
    MonitorState × List Notification :=
  let st1 : MonitorState := { st with quotas := getQuotasForTier tier }
  (st1, notifyCallbacks st1)

/-- `getCurrentTier`: the tier recorded in the active quota set. -/
def getCurrentTier (st : MonitorState) : String :=
  st.quotas.tier

/-- `onUpdate`: push the callback onto the end of the list. -/
def onUpdate (st : MonitorState) (callback : ℕ) : MonitorState :=
  { st with updateCallbacks := st.updateCallbacks ++ [callback] }

/-- JavaScript `Array.prototype.indexOf`: index of the first occurrence,
`none` when absent. -/
def firstIndexOf (l : List ℕ) (c : ℕ) : Option ℕ :=
  match l with
  | [] => none
  | a :: rest => if a = c then some 0 else (firstIndexOf rest c).map (· + 1)

/-- `removeUpdateCallback`: `indexOf` then `splice(index, 1)` when found,
otherwise leave the list alone. -/
def removeUpdateCallback (st : MonitorState) (callback : ℕ) : MonitorState :=
  match firstIndexOf st.updateCallbacks callback with
  | some index => { st with updateCallbacks := st.updateCallbacks.eraseIdx index }
  | none => st

/-- `getUsageStats` as a method in the uniform effectful signature: its
body reads the fields, assigns nothing, and calls no callback. -/
def getUsageStatsOp (st : MonitorState) : UsageStats × MonitorState × List Notification :=
  (getUsageStats st, st, [])

/-- `getServiceUsage` in the uniform effectful signature. -/
def getServiceUsageOp (st : MonitorState) (service : ServiceType) :
    ServiceUsage × MonitorState × List Notification :=
  (getServiceUsage st service, st, [])

/-- `checkAlerts` in the uniform effectful signature. -/
def checkAlertsOp (st : MonitorState) : List ServiceUsage × MonitorState × List Notification :=
  (checkAlerts st, st, [])

/-- `getCurrentTier` in the uniform effectful signature. -/
def getCurrentTierOp (st : MonitorState) : String × MonitorState × List Notification :=
  (getCurrentTier st, st, [])

/-- A patch whose supplied count fields are all non-negative. -/
def nonnegPatch (p : CursorProLimitsPatch) : Prop :=
  (∀ q ∈ p.sonnet45Requests, 0 ≤ q) ∧ (∀ q ∈ p.geminiRequests, 0 ≤ q) ∧
  (∀ q ∈ p.gpt5Requests, 0 ≤ q) ∧ (∀ q ∈ p.totalRequests, 0 ≤ q)

/-- The states a monitor can be in: constructed with some tier, then any
sequence of non-negative usage updates, tier changes and observer
registrations or removals. -/
inductive Reachable : MonitorState → Prop where
  | init (tier : String) (now : ℕ) : Reachable (initMonitor tier now)
  | update {st : MonitorState} (p : CursorProLimitsPatch) (now : ℕ)
      (h : Reachable st) (hp : nonnegPatch p) : Reachable (updateLimits st p now).1
  | setTier {st : MonitorState} (tier : String) (h : Reachable st) :
      Reachable (updateTier st tier).1
  | subscribe {st : MonitorState} (c : ℕ) (h : Reachable st) :
      Reachable (onUpdate st c)
  | unsubscribe {st : MonitorState} (c : ℕ) (h : Reachable st) :
      Reachable (removeUpdateCallback st c)

/-- Scenario patch from the spec: sonnet45=200, gemini=500, gpt5=450,
total=1150. -/
def demoPatch : CursorProLimitsPatch :=
  { sonnet45Requests := some 200, geminiRequests := some 500,
    gpt5Requests := some 450, totalRequests := some 1150 }

/-- The pro-tier monitor after applying the scenario patch. -/
def demoState : MonitorState :=
  (updateLimits (initMonitor "pro" 0) demoPatch 1).1

/-- A pro-tier monitor with a small sonnet45 count (5 of 225). -/
def lowState : MonitorState :=
  (updateLimits (initMonitor "pro" 0) { sonnet45Requests := some 5 } 1).1

/-- A pro-tier monitor whose total count exceeds its total ceiling. -/
def overState : MonitorState :=
  (updateLimits (initMonitor "pro" 0) { totalRequests := some 2000 } 1).1

/-- Counts of the snapshot all non-negative. -/
def CountsNonneg (st : MonitorState) : Prop :=
  0 ≤ st.limits.sonnet45Requests ∧ 0 ≤ st.limits.geminiRequests ∧
  0 ≤ st.limits.gpt5Requests ∧ 0 ≤ st.limits.totalRequests

theorem jsMin_eq_min (a b : ℚ) : jsMin a b = min a b :=
  (min_def a b).symm

theorem jsMax_eq_max (a b : ℚ) : jsMax a b = max a b :=
  (max_def a b).symm

theorem getQuotasForTier_pos (tier : String) :
    0 < (getQuotasForTier tier).maxSonnet45Requests ∧
    0 < (getQuotasForTier tier).maxGeminiRequests ∧
    0 < (getQuotasForTier tier).maxGpt5Requests ∧
    0 < (getQuotasForTier tier).maxTotalRequests := by
  unfold getQuotasForTier
  split_ifs <;> norm_num

theorem getD_nonneg {o : Option ℚ} {d : ℚ} (ho : ∀ q ∈ o, 0 ≤ q) (hd : 0 ≤ d) :
    0 ≤ o.getD d := by
  cases o with
  | none => exact hd
  | some q => exact ho q rfl

theorem updateLimits_counts_nonneg {st : MonitorState} {p : CursorProLimitsPatch}
    {now : ℕ} (hst : CountsNonneg st) (hp : nonnegPatch p) :
    CountsNonneg (updateLimits st p now).1 := by
  obtain ⟨h1, h2, h3, h4⟩ := hst
  obtain ⟨g1, g2, g3, g4⟩ := hp
  exact ⟨getD_nonneg g1 h1, getD_nonneg g2 h2, getD_nonneg g3 h3, getD_nonneg g4 h4⟩

theorem removeUpdateCallback_fields (st : MonitorState) (c : ℕ) :
    (removeUpdateCallback st c).limits = st.limits ∧
    (removeUpdateCallback st c).quotas = st.quotas := by
  unfold removeUpdateCallback
  cases firstIndexOf st.updateCallbacks c <;> exact ⟨rfl, rfl⟩

/-- Every reachable state has non-negative counts and a quota set resolved
from the catalog. -/
theorem reachable_invariant {st : MonitorState} (h : Reachable st) :
    CountsNonneg st ∧ ∃ t, st.quotas = getQuotasForTier t := by
  induction h with
  | init tier now =>
    exact ⟨⟨le_refl 0, le_refl 0, le_refl 0, le_refl 0⟩, tier, rfl⟩
  | update p now h hp ih =>
    exact ⟨updateLimits_counts_nonneg ih.1 hp, ih.2⟩
  | setTier tier h ih =>
    exact ⟨ih.1, tier, rfl⟩
  | subscribe c h ih =>
    exact ih
  | unsubscribe c h ih =>
    obtain ⟨hl, hq⟩ := removeUpdateCallback_fields _ c
    refine ⟨?_, ?_⟩
    · unfold CountsNonneg
      rw [hl]
      exact ih.1
    · rw [hq]
      exact ih.2

theorem getCurrentUsage_nonneg {st : MonitorState} (hc : CountsNonneg st)
    (s : ServiceType) : 0 ≤ getCurrentUsage st s := by
  obtain ⟨h1, h2, h3, h4⟩ := hc
  cases s <;> assumption

theorem getMaxUsage_pos {st : MonitorState} (hq : ∃ t, st.quotas = getQuotasForTier t)
    (s : ServiceType) : 0 < getMaxUsage st s := by
  obtain ⟨t, ht⟩ := hq
  obtain ⟨g1, g2, g3, g4⟩ := getQuotasForTier_pos t
  cases s <;> simp only [getMaxUsage, ht] <;> assumption

theorem calculatePercentage_bounds {current maxQ : ℚ} (hc : 0 ≤ current)
    (hm : 0 < maxQ) :
    0 ≤ calculatePercentage current maxQ ∧ calculatePercentage current maxQ ≤ 100 ∧
    (maxQ ≤ current → calculatePercentage current maxQ = 100) := by
  unfold calculatePercentage
  rw [if_neg (ne_of_gt hm), jsMin_eq_min]
  refine ⟨?_, min_le_left _ _, ?_⟩
  · have : 0 ≤ current / maxQ * 100 := by positivity
    exact le_min (by norm_num) this
  · intro hle
    have h1 : (1 : ℚ) ≤ current / maxQ := (one_le_div hm).mpr hle
    have : (100 : ℚ) ≤ current / maxQ * 100 := by nlinarith
    exact min_eq_left this

theorem usagePercentages_get (st : MonitorState) (s : ServiceType) :
    (getUsageStats st).usagePercentages.get s =
      calculatePercentage (getCurrentUsage st s) (getMaxUsage st s) := by
  cases s <;> rfl

theorem remaining_get (st : MonitorState) (s : ServiceType) :
    (getUsageStats st).remaining.get s =
      jsMax 0 (getMaxUsage st s - getCurrentUsage st s) := by
  cases s <;> rfl

theorem updateLimits_recipients (st : MonitorState) (p : CursorProLimitsPatch)
    (now : ℕ) : (updateLimits st p now).2.map Prod.fst = st.updateCallbacks := by
  simp only [updateLimits, notifyCallbacks, List.map_map]
  exact List.map_id' _

theorem updateTier_recipients (st : MonitorState) (tier : String) :
    (updateTier st tier).2.map Prod.fst = st.updateCallbacks := by
  simp only [updateTier, notifyCallbacks, List.map_map]
  exact List.map_id' _

theorem getQuotasForTier_of_ne {tier : String} (h1 : tier ≠ "pro")
    (h2 : tier ≠ "pro-plus") (h3 : tier ≠ "ultra") :
    getQuotasForTier tier = getQuotasForTier "pro" := by
  simp [getQuotasForTier, h1, h2, h3]

/-- The pro-tier monitor after setting sonnet45 to -5. -/
def negState : MonitorState :=
  (updateLimits (initMonitor "pro" 0) { sonnet45Requests := some (-5) } 1).1

/-- C2: `getQuotasForTier` is a pure function returning the three fixed
catalog rows for "pro", "pro-plus" and "ultra", and the pro row for every
other string, never an error. -/
theorem c2_quotas_catalog :
    getQuotasForTier "pro" =
      { maxSonnet45Requests := 225, maxGeminiRequests := 550,
        maxGpt5Requests := 500, maxTotalRequests := 1275, tier := "pro" } ∧
    getQuotasForTier "pro-plus" =
      { maxSonnet45Requests := 675, maxGeminiRequests := 1650,
        maxGpt5Requests := 1500, maxTotalRequests := 3825, tier := "pro-plus" } ∧
    getQuotasForTier "ultra" =
      { maxSonnet45Requests := 4500, maxGeminiRequests := 11000,
        maxGpt5Requests := 10000, maxTotalRequests := 25500, tier := "ultra" } ∧
    ∀ tier : String, tier ≠ "pro" → tier ≠ "pro-plus" → tier ≠ "ultra" →
      getQuotasForTier tier = getQuotasForTier "pro" := by
  refine ⟨rfl, rfl, rfl, ?_⟩
  intro tier h1 h2 h3
  exact getQuotasForTier_of_ne h1 h2 h3

/-- C2 witness: an unrecognized tier string resolves to the pro quotas. -/
theorem c2_fallback_witness :
    getQuotasForTier "enterprise" = getQuotasForTier "pro" :=
  c2_quotas_catalog.2.2.2 "enterprise" (by decide) (by decide) (by decide)

/-- C5: `updateLimits` writes exactly the supplied count fields, leaves the
unsupplied ones unchanged, always refreshes the timestamp, and touches
neither the quotas nor the callback list; the spec's concrete example
10/20/5/35 updated with gemini=25 comes out 10/25/5/35. -/
theorem c5_updateLimits_merge (st : MonitorState) (p : CursorProLimitsPatch)
    (now : ℕ) :
    (updateLimits st p now).1.limits.sonnet45Requests =
      p.sonnet45Requests.getD st.limits.sonnet45Requests ∧
    (updateLimits st p now).1.limits.geminiRequests =
      p.geminiRequests.getD st.limits.geminiRequests ∧
    (updateLimits st p now).1.limits.gpt5Requests =
      p.gpt5Requests.getD st.limits.gpt5Requests ∧
    (updateLimits st p now).1.limits.totalRequests =
      p.totalRequests.getD st.limits.totalRequests ∧
    (updateLimits st p now).1.limits.lastUpdated = now ∧
    (updateLimits st p now).1.quotas = st.quotas ∧
    (updateLimits st p now).1.updateCallbacks = st.updateCallbacks ∧
    (updateLimits
        { limits := { sonnet45Requests := 10, geminiRequests := 20,
                      gpt5Requests := 5, totalRequests := 35, lastUpdated := 0 },
          quotas := getQuotasForTier "pro", updateCallbacks := [] }
        { geminiRequests := some 25 } 1).1.limits =
      { sonnet45Requests := 10, geminiRequests := 25, gpt5Requests := 5,
        totalRequests := 35, lastUpdated := 1 } :=
  ⟨rfl, rfl, rfl, rfl, rfl, rfl, rfl, rfl⟩

/-- C6: `updateTier` replaces only the quota set, leaving the usage
snapshot (counts and timestamp) and the callback list unchanged, and emits
the same observer fan-out a usage update does: every registered callback,
in order, with the freshly computed stats. -/
theorem c6_updateTier_frame (st : MonitorState) (tier : String)
    (p : CursorProLimitsPatch) (now : ℕ) :
    (updateTier st tier).1.limits = st.limits ∧
    (updateTier st tier).1.quotas = getQuotasForTier tier ∧
    (updateTier st tier).1.updateCallbacks = st.updateCallbacks ∧
    (updateTier st tier).2 = notifyCallbacks (updateTier st tier).1 ∧
    (updateLimits st p now).2 = notifyCallbacks (updateLimits st p now).1 ∧
    (updateTier st tier).2 =
      st.updateCallbacks.map (fun c => (c, getUsageStats (updateTier st tier).1)) ∧
    (updateTier st tier).2.map Prod.fst = st.updateCallbacks ∧
    (updateLimits st p now).2.map Prod.fst = st.updateCallbacks :=
  ⟨rfl, rfl, rfl, rfl, rfl, rfl, updateTier_recipients st tier,
    updateLimits_recipients st p now⟩

/-- C8: the four query operations return the state they were given,
unchanged, emit no notification, and repeating `getUsageStats` with no
intervening mutation returns an identical result. -/
theorem c8_queries_pure (st : MonitorState) (s : ServiceType) :
    (getUsageStatsOp st).2.1 = st ∧ (getUsageStatsOp st).2.2 = [] ∧
    (getServiceUsageOp st s).2.1 = st ∧ (getServiceUsageOp st s).2.2 = [] ∧
    (checkAlertsOp st).2.1 = st ∧ (checkAlertsOp st).2.2 = [] ∧
    (getCurrentTierOp st).2.1 = st ∧ (getCurrentTierOp st).2.2 = [] ∧
    (getUsageStatsOp (getUsageStatsOp st).2.1).1 = (getUsageStatsOp st).1 :=
  ⟨rfl, rfl, rfl, rfl, rfl, rfl, rfl, rfl, rfl⟩

/-- C9: every operation is total.  Any rational count, negative included,
is accepted verbatim by `updateLimits`; tier resolution always lands on
one of the three catalog rows; and a negative count flows on through the
derived figures (remaining clamped up, percentage computed, no error):
sonnet45 = -5 on pro gives remaining 230 and percentage -20/9. -/
theorem c9_total_operations (st : MonitorState) (q : ℚ) (now : ℕ)
    (tier : String) :
    (updateLimits st { geminiRequests := some q } now).1.limits.geminiRequests = q ∧
    (getQuotasForTier tier = getQuotasForTier "pro" ∨
      getQuotasForTier tier = getQuotasForTier "pro-plus" ∨
      getQuotasForTier tier = getQuotasForTier "ultra") ∧
    negState.limits.sonnet45Requests = -5 ∧
    (getUsageStats negState).remaining.get .sonnet45 = 230 ∧
    (getUsageStats negState).usagePercentages.get .sonnet45 = -20/9 := by
  refine ⟨rfl, ?_, rfl, ?_, ?_⟩
  · by_cases h1 : tier = "pro"
    · subst h1; exact Or.inl rfl
    by_cases h2 : tier = "pro-plus"
    · subst h2; exact Or.inr (Or.inl rfl)
    by_cases h3 : tier = "ultra"
    · subst h3; exact Or.inr (Or.inr rfl)
    exact Or.inl (getQuotasForTier_of_ne h1 h2 h3)
  · norm_num [getUsageStats, negState, updateLimits, initMonitor, getQuotasForTier,
      jsMax, ServiceFigures.get]
  · norm_num [getUsageStats, negState, updateLimits, initMonitor, getQuotasForTier,
      calculatePercentage, jsMin, ServiceFigures.get]

/-- C10: in every `ServiceUsage` the monitor produces, a set critical flag
forces the warning flag, because both compare the same percentage value
and the critical threshold 0.95 is above the warning threshold 0.8. -/
theorem c10_critical_implies_warning (st : MonitorState) (s : ServiceType)
    (h : (getServiceUsage st s).isCritical = true) :
    (getServiceUsage st s).isWarning = true := by
  simp only [getServiceUsage, ge_iff_le, decide_eq_true_eq] at h ⊢
  exact le_trans (by norm_num) h

/-- C10 witness: on the pro tier with gemini = 500 of 550, the gemini entry
is critical, and the theorem then makes it a warning as well. -/
theorem c10_witness :
    (getServiceUsage demoState .gemini).isCritical = true ∧
    (getServiceUsage demoState .gemini).isWarning = true := by
  have hcrit : (getServiceUsage demoState .gemini).isCritical = true := by
    norm_num [getServiceUsage, getUsageStats, getCurrentUsage, getMaxUsage,
      demoState, demoPatch, updateLimits, initMonitor, getQuotasForTier,
      calculatePercentage, jsMin, jsMax, ServiceFigures.get]
  exact ⟨hcrit, c10_critical_implies_warning demoState .gemini hcrit⟩

theorem firstIndexOf_eq_none {l : List ℕ} {c : ℕ} (h : c ∉ l) :
    firstIndexOf l c = none := by
  induction l with
  | nil => rfl
  | cons a rest ih =>
    simp only [List.mem_cons, not_or] at h
    have hne : a ≠ c := fun hac => h.1 hac.symm
    simp [firstIndexOf, hne, ih h.2]

theorem firstIndexOf_eraseIdx (l : List ℕ) (c : ℕ) :
    (match firstIndexOf l c with
      | some i => List.eraseIdx l i
      | none => l) = l.erase c := by
  induction l with
  | nil => rfl
  | cons a rest ih =>
    by_cases hac : a = c
    · subst hac
      simp [firstIndexOf, List.erase_cons_head]
    · have herase : (a :: rest).erase c = a :: rest.erase c := by
        simp [List.erase_cons, hac]
      rw [herase]
      cases hfi : firstIndexOf rest c with
      | none =>
        rw [hfi] at ih
        simp only [firstIndexOf, if_neg hac, hfi, Option.map_none']
        exact congrArg (List.cons a) ih
      | some i =>
        rw [hfi] at ih
        simp only [firstIndexOf, if_neg hac, hfi, Option.map_some']
        exact congrArg (List.cons a) ih

theorem removeUpdateCallback_erase (st : MonitorState) (c : ℕ) :
    (removeUpdateCallback st c).updateCallbacks = st.updateCallbacks.erase c := by
  have h := firstIndexOf_eraseIdx st.updateCallbacks c
  unfold removeUpdateCallback
  cases hfi : firstIndexOf st.updateCallbacks c with
  | none =>
    rw [hfi] at h
    simpa using h
  | some i =>
    rw [hfi] at h
    simpa using h

/-- C1 counterexample: on the pro tier after sonnet45=200, gemini=500,
gpt5=450, total=1150, `checkAlerts` returns four entries, not three, all
of them critical, although sonnet45's fraction of ceiling is below 0.95;
and warning fires on a 5-of-225 state whose fraction is far below 0.8. -/
theorem c1_claim_fails_on_code :
    (checkAlerts demoState).length = 4 ∧
    (checkAlerts demoState).map (fun u => u.service) =
      [.sonnet45, .gemini, .gpt5, .total] ∧
    (checkAlerts demoState).all (fun u => u.isCritical) = true ∧
    (getServiceUsage demoState .sonnet45).isCritical = true ∧
    getCurrentUsage demoState .sonnet45 / getMaxUsage demoState .sonnet45 <
      (0.95 : ℚ) ∧
    (getServiceUsage lowState .sonnet45).isWarning = true ∧
    getCurrentUsage lowState .sonnet45 / getMaxUsage lowState .sonnet45 <
      (0.8 : ℚ) := by
  norm_num [checkAlerts, services, getServiceUsage, getUsageStats,
    getCurrentUsage, getMaxUsage, demoState, demoPatch, lowState, updateLimits,
    initMonitor, getQuotasForTier, calculatePercentage, jsMin, jsMax,
    ServiceFigures.get, List.filter, List.all]

/-- C1 as amended: the flags compare the 0-100 scale percentage itself
against the literals 0.8 and 0.95 (so they fire from 0.8 percent and 0.95
percent of ceiling, not from fractions 0.8 and 0.95), and on the pro tier
after sonnet45=200, gemini=500, gpt5=450, total=1150 `checkAlerts` returns
all four entries, in order sonnet45, gemini, gpt5, total, every one
warning and critical. -/
theorem c1_thresholds_amended (st : MonitorState) (s : ServiceType) :
    ((getServiceUsage st s).isWarning = true ↔
      (0.8 : ℚ) ≤ (getUsageStats st).usagePercentages.get s) ∧
    ((getServiceUsage st s).isCritical = true ↔
      (0.95 : ℚ) ≤ (getUsageStats st).usagePercentages.get s) ∧
    (checkAlerts demoState).map (fun u => (u.service, u.isWarning, u.isCritical)) =
      [(.sonnet45, true, true), (.gemini, true, true),
        (.gpt5, true, true), (.total, true, true)] := by
  refine ⟨?_, ?_, ?_⟩
  · simp [getServiceUsage, ge_iff_le]
  · simp [getServiceUsage, ge_iff_le]
  · norm_num [checkAlerts, services, getServiceUsage, getUsageStats,
      getCurrentUsage, getMaxUsage, demoState, demoPatch, updateLimits,
      initMonitor, getQuotasForTier, calculatePercentage, jsMin, jsMax,
      ServiceFigures.get, List.filter]

/-- C3: `getUsageStats` computes percentage = min(100, 100 x current /
ceiling) with a zero ceiling yielding 0, and remaining = max(0, ceiling -
current); on every reachable state (non-negative update sequences) the
percentage lies in [0, 100], hits exactly 100 when current reaches the
ceiling, and remaining is never negative. -/
theorem c3_stats_formulas (st : MonitorState) (s : ServiceType) :
    (getUsageStats st).usagePercentages.get s =
      (if getMaxUsage st s = 0 then 0
        else min 100 (getCurrentUsage st s / getMaxUsage st s * 100)) ∧
    (getUsageStats st).remaining.get s =
      max 0 (getMaxUsage st s - getCurrentUsage st s) ∧
    (Reachable st →
      0 ≤ (getUsageStats st).usagePercentages.get s ∧
      (getUsageStats st).usagePercentages.get s ≤ 100 ∧
      (getMaxUsage st s ≤ getCurrentUsage st s →
        (getUsageStats st).usagePercentages.get s = 100) ∧
      0 ≤ (getUsageStats st).remaining.get s) := by
  refine ⟨?_, ?_, ?_⟩
  · rw [usagePercentages_get]
    unfold calculatePercentage
    rw [jsMin_eq_min]
  · rw [remaining_get, jsMax_eq_max]
  · intro hreach
    obtain ⟨hc, hq⟩ := reachable_invariant hreach
    have hpos := getMaxUsage_pos hq s
    have hnn := getCurrentUsage_nonneg hc s
    obtain ⟨b1, b2, b3⟩ := calculatePercentage_bounds hnn hpos
    rw [usagePercentages_get, remaining_get]
    refine ⟨b1, b2, b3, ?_⟩
    rw [jsMax_eq_max]
    exact le_max_left 0 _

/-- C3 witness: the reachable pro-tier state with total = 2000 of 1275 has
its total percentage clamped to exactly 100 and non-negative remaining. -/
theorem c3_reachable_witness :
    0 ≤ (getUsageStats overState).usagePercentages.get .total ∧
    (getUsageStats overState).usagePercentages.get .total ≤ 100 ∧
    (getUsageStats overState).usagePercentages.get .total = 100 ∧
    0 ≤ (getUsageStats overState).remaining.get .total := by
  have hreach : Reachable overState :=
    Reachable.update { totalRequests := some 2000 } 1 (Reachable.init "pro" 0)
      (by
        refine ⟨fun q hq => Option.noConfusion hq, fun q hq => Option.noConfusion hq,
          fun q hq => Option.noConfusion hq, fun q hq => ?_⟩
        have h := Option.some.inj hq
        rw [← h]
        norm_num)
  have h := (c3_stats_formulas overState .total).2.2 hreach
  refine ⟨h.1, h.2.1, h.2.2.1 ?_, h.2.2.2⟩
  norm_num [overState, updateLimits, initMonitor, getQuotasForTier,
    getMaxUsage, getCurrentUsage]

/-- C4: `checkAlerts` is the fixed-order enumeration sonnet45, gemini,
gpt5, total mapped through `getServiceUsage` and filtered to the flagged
entries: the result is a sublist of that enumeration (order preserved),
its services carry no duplicate, and a service's entry is in the result
exactly when its warning or critical flag is set. -/
theorem c4_alerts_order (st : MonitorState) :
    (checkAlerts st).Sublist (services.map (fun s => getServiceUsage st s)) ∧
    ((checkAlerts st).map (fun u => u.service)).Nodup ∧
    ∀ s : ServiceType, getServiceUsage st s ∈ checkAlerts st ↔
      ((getServiceUsage st s).isWarning = true ∨
        (getServiceUsage st s).isCritical = true) := by
  refine ⟨List.filter_sublist _, ?_, ?_⟩
  · have hmap : (services.map (fun s => getServiceUsage st s)).map
        (fun u => u.service) = services := by
      rw [List.map_map]
      exact List.map_id' _
    have hsub : ((checkAlerts st).map (fun u => u.service)).Sublist services := by
      rw [← hmap]
      exact (List.filter_sublist _).map _
    exact List.Nodup.sublist hsub (by decide)
  · intro s
    constructor
    · intro hmem
      have := List.of_mem_filter hmem
      simpa using this
    · intro hflag
      apply List.mem_filter.mpr
      refine ⟨List.mem_map_of_mem _ ?_, by simpa using hflag⟩
      cases s <;> simp [services]

/-- C7: one update or tier change notifies exactly the registered
callbacks, each once per registration, in registration order; removal is
by identity, erases only the first matching occurrence, is a no-op for an
absent callback, and once the last registration is gone the callback gets
no further notifications. -/
theorem c7_observer_discipline (st : MonitorState) (p : CursorProLimitsPatch)
    (now : ℕ) (tier : String) (c : ℕ) :
    (updateLimits st p now).2.map Prod.fst = st.updateCallbacks ∧
    (updateTier st tier).2.map Prod.fst = st.updateCallbacks ∧
    ((updateLimits st p now).2.map Prod.fst).count c = st.updateCallbacks.count c ∧
    (removeUpdateCallback st c).updateCallbacks = st.updateCallbacks.erase c ∧
    (c ∉ st.updateCallbacks → removeUpdateCallback st c = st) ∧
    (∀ l₁ l₂ : List ℕ, st.updateCallbacks = l₁ ++ c :: l₂ → c ∉ l₁ →
      (removeUpdateCallback st c).updateCallbacks = l₁ ++ l₂) ∧
    (st.updateCallbacks.count c ≤ 1 →
      ((updateLimits (removeUpdateCallback st c) p now).2.map Prod.fst).count c
        = 0) := by
  refine ⟨updateLimits_recipients st p now, updateTier_recipients st tier, ?_,
    removeUpdateCallback_erase st c, ?_, ?_, ?_⟩
  · rw [updateLimits_recipients]
  · intro hnot
    unfold removeUpdateCallback
    rw [firstIndexOf_eq_none hnot]
  · intro l₁ l₂ heq hnot
    rw [removeUpdateCallback_erase, heq, List.erase_append_right _ hnot,
      List.erase_cons_head]
  · intro hcount
    rw [updateLimits_recipients, removeUpdateCallback_erase,
      List.count_erase_self]
    omega

/-- C7 witness: removing an unregistered callback changes nothing; with
callbacks [7, 5, 7], removing 7 leaves [5, 7]; after removing a
callback registered once, an update notifies it zero times. -/
theorem c7_observer_witness :
    removeUpdateCallback (initMonitor "pro" 0) 7 = initMonitor "pro" 0 ∧
    (removeUpdateCallback
        (onUpdate (onUpdate (onUpdate (initMonitor "pro" 0) 7) 5) 7)
        7).updateCallbacks = [5, 7] ∧
    ((updateLimits
        (removeUpdateCallback (onUpdate (initMonitor "pro" 0) 7) 7)
        {} 2).2.map Prod.fst).count 7 = 0 := by
  refine ⟨?_, ?_, ?_⟩
  · exact (c7_observer_discipline (initMonitor "pro" 0) {} 2 "pro" 7).2.2.2.2.1
      (by simp [initMonitor])
  · exact (c7_observer_discipline
        (onUpdate (onUpdate (onUpdate (initMonitor "pro" 0) 7) 5) 7)
        {} 2 "pro" 7).2.2.2.2.2.1 [] [5, 7] rfl (by simp)
  · exact (c7_observer_discipline (onUpdate (initMonitor "pro" 0) 7)
        {} 2 "pro" 7).2.2.2.2.2.2 (by simp [onUpdate, initMonitor])

end CursorLimits
